import Mathlib

set_option autoImplicit false

/-! Shallow embedding of the ding-go client library: the status enumerations
(pkg/status/status.go), the api response decoding layer (internal/api/api.go),
the client facade and error normalizer (client.go), and the leveled logger
(log.go). JSON bodies are modelled as an abstract syntax tree; a body that is
not valid JSON at all is modelled as the absence of a tree. -/

namespace Ding

/-- A JSON value. `num` carries an integer, which covers every numeric field
of this wire protocol (`remaining_retry` is the only number). -/
inductive Json where
  | null
  | bool (b : Bool)
  | num (n : Int)
  | str (s : String)
  | arr (elems : List Json)
  | obj (fields : List (String × Json))

/-- Models how `encoding/json` resolves duplicate object keys when filling a
struct: every occurrence is processed in order, so the last one wins. -/
def lookupField (fields : List (String × Json)) (key : String) : Option Json :=
  match fields with
  | [] => none
  | (k, v) :: rest =>
    match lookupField rest key with
    | some v2 => some v2
    | none => if k = key then some v else none

/-- Models how `encoding/json` fills a plain `string` struct field: a missing
key or a JSON `null` leaves the zero value `""`; a JSON string stores the
string; any other JSON value is a decode error. -/
def getStringField (fields : List (String × Json)) (key : String) : Option String :=
  match lookupField fields key with
  | none => some ""
  | some Json.null => some ""
  | some (Json.str s) => some s
  | some _ => none

/-- Models `json.Unmarshal(b, &res)` for `res : string`, as called inside each
UnmarshalJSON method of pkg/status: a JSON string yields the string, JSON
`null` succeeds and leaves `res` at its zero value `""`, and any other JSON
value is an error. -/
def unmarshalString : Json → Option String
  | Json.str s => some s
  | Json.null => some ""
  | _ => none

namespace status

/-- Go: `type Check string` (pkg/status/status.go). -/
abbrev Check := String

def CheckUnknown : Check := "unknown"
def CheckValid : Check := "valid"
def CheckInvalid : Check := "invalid"
def CheckWithoutAttempt : Check := "without_attempt"
def CheckRateLimited : Check := "rate_limited"
def CheckAlreadyValidated : Check := "already_validated"
def CheckExpiredAuth : Check := "expired_auth"

/-- Go: `func (d *Check) UnmarshalJSON(b []byte) error`. The switch keeps a
recognized wire value and sends everything else to `CheckUnknown`. -/
def Check.unmarshalJSON (b : Json) : Option Check :=
  match unmarshalString b with
  | none => none
  | some res =>
    if res = "valid" ∨ res = "invalid" ∨ res = "without_attempt" ∨
        res = "rate_limited" ∨ res = "already_validated" ∨ res = "expired_auth" then
      some res
    else
      some CheckUnknown

/-- Go: `type Auth string` (pkg/status/status.go). -/
abbrev Auth := String

def AuthUnknown : Auth := "unknown"
def AuthPending : Auth := "pending"
def AuthRateLimited : Auth := "rate_limited"
def AuthSpamDetected : Auth := "spam_detected"
def AuthApproved : Auth := "approved"
def AuthCanceled : Auth := "canceled"
def AuthExpired : Auth := "expired"

/-- Go: `func (d *Auth) UnmarshalJSON(b []byte) error`. -/
def Auth.unmarshalJSON (b : Json) : Option Auth :=
  match unmarshalString b with
  | none => none
  | some res =>
    if res = "pending" ∨ res = "rate_limited" ∨ res = "spam_detected" ∨
        res = "approved" ∨ res = "canceled" ∨ res = "expired" then
      some res
    else
      some AuthUnknown

/-- Go: `type Retry string` (pkg/status/status.go). -/
abbrev Retry := String

def RetryUnknown : Retry := "unknown"
def RetryApproved : Retry := "approved"
def RetryDenied : Retry := "denied"
def RetryNoAttempt : Retry := "no_attempt"
def RetryRateLimited : Retry := "rate_limited"
def RetryExpiredAuth : Retry := "expired_auth"
def RetryAlreadyValidated : Retry := "already_validated"

/-- Go: `func (d *Retry) UnmarshalJSON(b []byte) error`. -/
def Retry.unmarshalJSON (b : Json) : Option Retry :=
  match unmarshalString b with
  | none => none
  | some res =>
    if res = "approved" ∨ res = "denied" ∨ res = "no_attempt" ∨
        res = "rate_limited" ∨ res = "expired_auth" ∨ res = "already_validated" then
      some res
    else
      some RetryUnknown

end status

/-- Models Go `time.Time` by its wire string; timestamp parsing itself lives
in the standard library and is abstracted by a validity predicate, with `""`
standing for the zero `time.Time`. -/
structure GoTime where
  wire : String
deriving DecidableEq

/-- The zero value of `time.Time`. -/
def GoTime.zero : GoTime := ⟨""⟩

/-- Models how `encoding/json` fills a `time.Time` struct field: a missing key
leaves the zero value, `time.Time.UnmarshalJSON` ignores a JSON `null`, a JSON
string must parse as an RFC 3339 timestamp (abstracted by `validTime`), and
any other JSON value is a decode error. -/
def getTimeField (validTime : String → Bool) (fields : List (String × Json))
    (key : String) : Option GoTime :=
  match lookupField fields key with
  | none => some GoTime.zero
  | some Json.null => some GoTime.zero
  | some (Json.str s) => if validTime s then some ⟨s⟩ else none
  | some _ => none

/-- Models how `encoding/json` fills an `int` struct field: a missing key or a
JSON `null` leaves the zero value, a JSON number stores the number, and any
other JSON value is a decode error. -/
def getIntField (fields : List (String × Json)) (key : String) : Option Int :=
  match lookupField fields key with
  | none => some 0
  | some Json.null => some 0
  | some (Json.num n) => some n
  | some _ => none

namespace api

/-- Go: `type ErrorCode string` (internal/api/api.go). It has no custom
UnmarshalJSON, so it decodes exactly as a plain string does. -/
abbrev ErrorCode := String

def ErrorCodeInternalServer : ErrorCode := "internal_server_error"
def ErrorCodeBadRequest : ErrorCode := "bad_request"
def ErrorCodeInvalidPhoneNumber : ErrorCode := "invalid_phone_number"
def ErrorCodeAccountInvalid : ErrorCode := "account_invalid"
def ErrorCodeNegativeBalance : ErrorCode := "negative_balance"
def ErrorCodeInvalidLine : ErrorCode := "invalid_line"
def ErrorCodeUnsupportedRegion : ErrorCode := "unsupported_region"
def ErrorCodeInvalidAuthUUID : ErrorCode := "invalid_auth_uuid"

/-- Go: `type ErrorResponse struct` with json tags code, message, doc_url. -/
structure ErrorResponse where
  Code : ErrorCode
  Message : String
  DocURL : String
deriving DecidableEq

/-- Models `json.NewDecoder(res.Body).Decode(&resp)` for `ErrorResponse`: the
body must be a JSON object (or `null`, which leaves the zero struct); each
string field decodes per `getStringField`. -/
def decodeErrorResponse : Json → Option ErrorResponse
  | Json.null => some ⟨"", "", ""⟩
  | Json.obj fields => do
    let code ← getStringField fields "code"
    let message ← getStringField fields "message"
    let docURL ← getStringField fields "doc_url"
    some ⟨code, message, docURL⟩
  | _ => none

/-- Go: `type AuthSuccessResponse struct` (internal/api/api.go). -/
structure AuthSuccessResponse where
  AuthenticationUUID : String
  Status : status.Auth
  CreatedAt : GoTime
  ExpiresAt : GoTime
deriving DecidableEq

/-- Models how `encoding/json` fills a field whose type has a custom
UnmarshalJSON (the status enums): a missing key leaves the zero value of the
underlying string type, `""`; a present value, JSON `null` included, is passed
to the UnmarshalJSON method. -/
def getAuthField (fields : List (String × Json)) (key : String) :
    Option status.Auth :=
  match lookupField fields key with
  | none => some ""
  | some j => status.Auth.unmarshalJSON j

/-- Same as `getAuthField` for the `status.Check` enum. -/
def getCheckField (fields : List (String × Json)) (key : String) :
    Option status.Check :=
  match lookupField fields key with
  | none => some ""
  | some j => status.Check.unmarshalJSON j

/-- Same as `getAuthField` for the `status.Retry` enum. -/
def getRetryField (fields : List (String × Json)) (key : String) :
    Option status.Retry :=
  match lookupField fields key with
  | none => some ""
  | some j => status.Retry.unmarshalJSON j

/-- Models `json.NewDecoder(res.Body).Decode(&resp)` for `AuthSuccessResponse`. -/
def decodeAuthSuccess (validTime : String → Bool) : Json → Option AuthSuccessResponse
  | Json.null => some ⟨"", "", GoTime.zero, GoTime.zero⟩
  | Json.obj fields => do
    let u ← getStringField fields "authentication_uuid"
    let st ← getAuthField fields "status"
    let c ← getTimeField validTime fields "created_at"
    let e ← getTimeField validTime fields "expires_at"
    some ⟨u, st, c, e⟩
  | _ => none

/-- Go: `type CheckSuccessResponse struct` (internal/api/api.go). -/
structure CheckSuccessResponse where
  AuthenticationUUID : String
  Status : status.Check
deriving DecidableEq

/-- Models `json.NewDecoder(res.Body).Decode(&resp)` for `CheckSuccessResponse`. -/
def decodeCheckSuccess : Json → Option CheckSuccessResponse
  | Json.null => some ⟨"", ""⟩
  | Json.obj fields => do
    let u ← getStringField fields "authentication_uuid"
    let st ← getCheckField fields "status"
    some ⟨u, st⟩
  | _ => none

/-- Go: `type RetrySuccessResponse struct` (internal/api/api.go). -/
structure RetrySuccessResponse where
  AuthenticationUUID : String
  Status : status.Retry
  CreatedAt : GoTime
  NextRetryAt : GoTime
  RemainingRetry : Int
deriving DecidableEq

/-- Models `json.NewDecoder(res.Body).Decode(&resp)` for `RetrySuccessResponse`. -/
def decodeRetrySuccess (validTime : String → Bool) : Json → Option RetrySuccessResponse
  | Json.null => some ⟨"", "", GoTime.zero, GoTime.zero, 0⟩
  | Json.obj fields => do
    let u ← getStringField fields "authentication_uuid"
    let st ← getRetryField fields "status"
    let c ← getTimeField validTime fields "created_at"
    let n ← getTimeField validTime fields "next_retry_at"
    let r ← getIntField fields "remaining_retry"
    some ⟨u, st, c, n, r⟩
  | _ => none

/-- The two sentinel errors of the api package: `ErrInternal`, `ErrUnauthorized`. -/
inductive ApiError where
  | internal
  | unauthorized
deriving DecidableEq

/-- Go: `type AuthenticationResponse struct { Error *ErrorResponse; Success *AuthSuccessResponse }`. -/
structure AuthenticationResponse where
  Error : Option ErrorResponse
  Success : Option AuthSuccessResponse
deriving DecidableEq

/-- Go: `type CheckResponse struct` (internal/api/api.go). -/
structure CheckResponse where
  Error : Option ErrorResponse
  Success : Option CheckSuccessResponse
deriving DecidableEq

/-- Go: `type RetryResponse struct` (internal/api/api.go). -/
structure RetryResponse where
  Error : Option ErrorResponse
  Success : Option RetrySuccessResponse
deriving DecidableEq

/-- The response-classification logic of `API.Authentication` (internal/api/api.go,
the part after `post` returns), given the HTTP status code and the body. A body
of `none` models text that is not valid JSON, so that decoding it fails. -/
def decodeAuthentication (validTime : String → Bool) (statusCode : Nat)
    (body : Option Json) : Except ApiError AuthenticationResponse :=
  if statusCode ≠ 200 then
    if statusCode = 403 then
      Except.error ApiError.unauthorized
    else
      match body.bind decodeErrorResponse with
      | none => Except.error ApiError.internal
      | some resp => Except.ok { Error := some resp, Success := none }
  else
    match body.bind (decodeAuthSuccess validTime) with
    | none => Except.error ApiError.internal
    | some resp => Except.ok { Error := none, Success := some resp }

/-- The response-classification logic of `API.Check` (internal/api/api.go). -/
def decodeCheck (statusCode : Nat) (body : Option Json) :
    Except ApiError CheckResponse :=
  if statusCode ≠ 200 then
    if statusCode = 403 then
      Except.error ApiError.unauthorized
    else
      match body.bind decodeErrorResponse with
      | none => Except.error ApiError.internal
      | some resp => Except.ok { Error := some resp, Success := none }
  else
    match body.bind decodeCheckSuccess with
    | none => Except.error ApiError.internal
    | some resp => Except.ok { Error := none, Success := some resp }

/-- The response-classification logic of `API.Retry` (internal/api/api.go). -/
def decodeRetry (validTime : String → Bool) (statusCode : Nat)
    (body : Option Json) : Except ApiError RetryResponse :=
  if statusCode ≠ 200 then
    if statusCode = 403 then
      Except.error ApiError.unauthorized
    else
      match body.bind decodeErrorResponse with
      | none => Except.error ApiError.internal
      | some resp => Except.ok { Error := some resp, Success := none }
  else
    match body.bind (decodeRetrySuccess validTime) with
    | none => Except.error ApiError.internal
    | some resp => Except.ok { Error := none, Success := some resp }

/-- Go: `type AuthRequest struct` (internal/api/api.go). -/
structure AuthRequest where
  PhoneNumber : String
  CustomerUUID : String
  IP : Option String
  DeviceID : Option String
  DeviceType : Option String
  AppVersion : Option String
  CallbackURL : Option String
  IsReturningUser : Option Bool
deriving DecidableEq

/-- Go: `type CheckRequest struct` (internal/api/api.go). -/
structure CheckRequest where
  CustomerUUID : String
  AuthenticationUUID : String
  CheckCode : String
deriving DecidableEq

/-- Go: `type RetryRequest struct` (internal/api/api.go). -/
structure RetryRequest where
  CustomerUUID : String
  AuthenticationUUID : String
deriving DecidableEq

end api

/-- A wire request, tagging which endpoint `post` is called against. -/
inductive NetReq where
  | authentication (req : api.AuthRequest)
  | check (req : api.CheckRequest)
  | retry (req : api.RetryRequest)
deriving DecidableEq

/-- The outcome of one `API.post` round trip: `fail` models a marshalling,
request-construction or transport error (retries already exhausted inside the
HTTP client); `resp` models a delivered HTTP response. -/
inductive PostResult where
  | fail
  | resp (statusCode : Nat) (body : Option Json)

/-- The external collaborators the client delegates to, fixed for the lifetime
of a client: the phone-number library (`phonenumbers.Parse` + `IsValidNumber`),
the UUID library (`uuid.Parse`), the URL parser (`url.ParseRequestURI`), the
RFC 3339 timestamp parser of `time.Time`, and the HTTP transport reached
through `API.post`. -/
structure Env where
  isValidNumber : String → Bool
  isValidUUID : String → Bool
  isValidURL : String → Bool
  validTime : String → Bool
  net : NetReq → PostResult

namespace api

/-- Go: `func (a *API) Authentication(ctx, req)` — one `post` to the
authentication endpoint, then response classification. -/
def Authentication (env : Env) (req : AuthRequest) :
    Except ApiError AuthenticationResponse :=
  match env.net (NetReq.authentication req) with
  | PostResult.fail => Except.error ApiError.internal
  | PostResult.resp statusCode body => decodeAuthentication env.validTime statusCode body

/-- Go: `func (a *API) Check(ctx, req)`. -/
def Check (env : Env) (req : CheckRequest) : Except ApiError CheckResponse :=
  match env.net (NetReq.check req) with
  | PostResult.fail => Except.error ApiError.internal
  | PostResult.resp statusCode body => decodeCheck statusCode body

/-- Go: `func (a *API) Retry(ctx, req)`. -/
def Retry (env : Env) (req : RetryRequest) : Except ApiError RetryResponse :=
  match env.net (NetReq.retry req) with
  | PostResult.fail => Except.error ApiError.internal
  | PostResult.resp statusCode body => decodeRetry env.validTime statusCode body

end api

/-- The recognized wire values of `status.Check`, as listed in its switch. -/
def checkRecognized : List String :=
  ["valid", "invalid", "without_attempt", "rate_limited", "already_validated", "expired_auth"]

/-- The recognized wire values of `status.Auth`, as listed in its switch. -/
def authRecognized : List String :=
  ["pending", "rate_limited", "spam_detected", "approved", "canceled", "expired"]

/-- The recognized wire values of `status.Retry`, as listed in its switch. -/
def retryRecognized : List String :=
  ["approved", "denied", "no_attempt", "rate_limited", "expired_auth", "already_validated"]

/-- The caller-facing error taxonomy of client.go: `ErrUnauthorized`,
`ErrInternal`, `ErrInvalidPhoneNumber`, `ErrInvalidCustomerUUID`,
`ErrNegativeBalance`, `ErrUnsupportedRegion`, `ErrInvalidAuthUUID`,
`ErrInvalidCallbackURL`. -/
inductive DingError where
  | unauthorized
  | internal
  | invalidPhoneNumber
  | invalidCustomerUUID
  | negativeBalance
  | unsupportedRegion
  | invalidAuthUUID
  | invalidCallbackURL
deriving DecidableEq

/-- Go: `func apiErrToErr(err error) error` (client.go): the api sentinel
`ErrUnauthorized` maps to the caller-facing unauthorized error and everything
else to the internal error. -/
def apiErrToErr : api.ApiError → DingError
  | api.ApiError.unauthorized => DingError.unauthorized
  | _ => DingError.internal

/-- Go: `func apiErrorCodeToErr(code api.ErrorCode) error` (client.go): the
fixed code-to-error table, with a default of the internal error. -/
def apiErrorCodeToErr (code : api.ErrorCode) : DingError :=
  if code = api.ErrorCodeInvalidPhoneNumber then DingError.invalidPhoneNumber
  else if code = api.ErrorCodeAccountInvalid then DingError.invalidCustomerUUID
  else if code = api.ErrorCodeNegativeBalance then DingError.negativeBalance
  else if code = api.ErrorCodeInvalidLine then DingError.invalidPhoneNumber
  else if code = api.ErrorCodeUnsupportedRegion then DingError.unsupportedRegion
  else if code = api.ErrorCodeInvalidAuthUUID then DingError.invalidAuthUUID
  else DingError.internal

/-- The six codes handled by the switch of `apiErrorCodeToErr`. -/
def handledErrorCodes : List api.ErrorCode :=
  [api.ErrorCodeInvalidPhoneNumber, api.ErrorCodeAccountInvalid,
   api.ErrorCodeNegativeBalance, api.ErrorCodeInvalidLine,
   api.ErrorCodeUnsupportedRegion, api.ErrorCodeInvalidAuthUUID]

/-- Go: `type AuthenticateOptions struct` (client.go). `DeviceType` is kept as
its underlying string. -/
structure AuthenticateOptions where
  PhoneNumber : String
  IP : Option String := none
  DeviceID : Option String := none
  DeviceType : Option String := none
  AppVersion : Option String := none
  CallbackURL : Option String := none
  IsReturningUser : Bool := false
deriving DecidableEq

/-- Go: `type Authentication struct` (client.go), the caller-facing result of
an authentication request. -/
structure Authentication where
  AuthenticationUUID : String
  Status : status.Auth
  CreatedAt : GoTime
  ExpiresAt : GoTime
deriving DecidableEq

/-- Go: `type Check struct` (client.go), the caller-facing result of a check
request. -/
structure Check where
  AuthenticationUUID : String
  Status : status.Check
deriving DecidableEq

/-- Go: `type Retry struct` (client.go), the caller-facing result of a retry
request. -/
structure Retry where
  AuthenticationUUID : String
  Status : status.Retry
deriving DecidableEq

/-- The wire request `Client.AuthenticateWithContext` builds from its options
(client.go): `DeviceType` is copied only when present, `IsReturningUser`
always. -/
def buildAuthRequest (customerUUID : String) (opt : AuthenticateOptions) :
    api.AuthRequest :=
  { PhoneNumber := opt.PhoneNumber
    CustomerUUID := customerUUID
    IP := opt.IP
    DeviceID := opt.DeviceID
    DeviceType := opt.DeviceType
    AppVersion := opt.AppVersion
    CallbackURL := opt.CallbackURL
    IsReturningUser := some opt.IsReturningUser }

/-- Placeholder for the nil `Success` pointer dereference: Go reads
`res.Success.X` after seeing `res.Error == nil`, which is well defined exactly
because the api layer never returns an envelope with both fields nil (the
envelope invariant proved below). -/
def zeroAuthSuccess : api.AuthSuccessResponse := ⟨"", "", GoTime.zero, GoTime.zero⟩

/-- Same placeholder for `CheckSuccessResponse`. -/
def zeroCheckSuccess : api.CheckSuccessResponse := ⟨"", ""⟩

/-- Same placeholder for `RetrySuccessResponse`. -/
def zeroRetrySuccess : api.RetrySuccessResponse := ⟨"", "", GoTime.zero, GoTime.zero, 0⟩

/-- The part of `Client.AuthenticateWithContext` after input validation:
request construction, the api call, and normalization of the outcome. The
second component records the network calls performed (the api layer issues
exactly one `post` per call). -/
def authenticateCall (env : Env) (customerUUID : String)
    (opt : AuthenticateOptions) : Except DingError Authentication × List NetReq :=
  let req := buildAuthRequest customerUUID opt
  match api.Authentication env req with
  | Except.error e => (Except.error (apiErrToErr e), [NetReq.authentication req])
  | Except.ok res =>
    match res.Error with
    | some e => (Except.error (apiErrorCodeToErr e.Code), [NetReq.authentication req])
    | none =>
      let s := res.Success.getD zeroAuthSuccess
      (Except.ok { AuthenticationUUID := s.AuthenticationUUID
                   Status := s.Status
                   CreatedAt := s.CreatedAt
                   ExpiresAt := s.ExpiresAt },
       [NetReq.authentication req])

/-- Go: `func (c *Client) AuthenticateWithContext(ctx, opt)` (client.go):
validate the phone number, validate the callback URL when provided, then call
the network. -/
def AuthenticateWithContext (env : Env) (customerUUID : String)
    (opt : AuthenticateOptions) : Except DingError Authentication × List NetReq :=
  if !(env.isValidNumber opt.PhoneNumber) then
    (Except.error DingError.invalidPhoneNumber, [])
  else
    match opt.CallbackURL with
    | some u =>
      if !(env.isValidURL u) then
        (Except.error DingError.invalidCallbackURL, [])
      else
        authenticateCall env customerUUID opt
    | none => authenticateCall env customerUUID opt

/-- Go: `func (c *Client) CheckWithContext(ctx, authUUID, code)` (client.go). -/
def CheckWithContext (env : Env) (customerUUID authUUID code : String) :
    Except DingError Check × List NetReq :=
  if !(env.isValidUUID authUUID) then
    (Except.error DingError.invalidAuthUUID, [])
  else
    let req : api.CheckRequest :=
      { CustomerUUID := customerUUID
        AuthenticationUUID := authUUID
        CheckCode := code }
    match api.Check env req with
    | Except.error e => (Except.error (apiErrToErr e), [NetReq.check req])
    | Except.ok res =>
      match res.Error with
      | some e => (Except.error (apiErrorCodeToErr e.Code), [NetReq.check req])
      | none =>
        let s := res.Success.getD zeroCheckSuccess
        (Except.ok { AuthenticationUUID := s.AuthenticationUUID, Status := s.Status },
         [NetReq.check req])

/-- Go: `func (c *Client) RetryWithContext(ctx, authUUID)` (client.go). -/
def RetryWithContext (env : Env) (customerUUID authUUID : String) :
    Except DingError Retry × List NetReq :=
  if !(env.isValidUUID authUUID) then
    (Except.error DingError.invalidAuthUUID, [])
  else
    let req : api.RetryRequest :=
      { CustomerUUID := customerUUID
        AuthenticationUUID := authUUID }
    match api.Retry env req with
    | Except.error e => (Except.error (apiErrToErr e), [NetReq.retry req])
    | Except.ok res =>
      match res.Error with
      | some e => (Except.error (apiErrorCodeToErr e.Code), [NetReq.retry req])
      | none =>
        let s := res.Success.getD zeroRetrySuccess
        (Except.ok { AuthenticationUUID := s.AuthenticationUUID, Status := s.Status },
         [NetReq.retry req])

namespace log

/-- Go: `type Level int` with `LevelDebug Level = iota` (log.go): the constants
are ordered Debug = 0, Info = 1, Warn = 2, Error = 3, Null = 4. -/
abbrev Level := Int

def LevelDebug : Level := 0
def LevelInfo : Level := 1
def LevelWarn : Level := 2
def LevelError : Level := 3
def LevelNull : Level := 4

/-- The stream a log line is written to. -/
inductive Stream where
  | stdout
  | stderr
deriving DecidableEq

/-- Go: `type Logger struct { Level Level }` (log.go). -/
structure Logger where
  Level : Level

/-- Go: `var DefaultLeveledLogger Logger = Logger{Level: LevelError}`. -/
def DefaultLeveledLogger : Logger := { Level := LevelError }

/-- Go: `func (l *Logger) Debugf(format string, v ...)` (log.go): the lines it
writes and where. The message stands for the already formatted text. -/
def Logger.Debugf (l : Logger) (msg : String) : List (Stream × String) :=
  if l.Level ≥ LevelDebug then [(Stream.stdout, "[DEBUG] " ++ msg ++ "\n")] else []

/-- Go: `func (l *Logger) Errorf(format string, v ...)` (log.go). -/
def Logger.Errorf (l : Logger) (msg : String) : List (Stream × String) :=
  if l.Level ≥ LevelError then [(Stream.stderr, "[ERROR] " ++ msg ++ "\n")] else []

/-- Go: `func (l *Logger) Infof(format string, v ...)` (log.go). -/
def Logger.Infof (l : Logger) (msg : String) : List (Stream × String) :=
  if l.Level ≥ LevelInfo then [(Stream.stdout, "[INFO] " ++ msg ++ "\n")] else []

/-- Go: `func (l *Logger) Warnf(format string, v ...)` (log.go). -/
def Logger.Warnf (l : Logger) (msg : String) : List (Stream × String) :=
  if l.Level ≥ LevelWarn then [(Stream.stderr, "[WARN] " ++ msg ++ "\n")] else []

end log

/-! Concrete inputs used by counterexamples and witnesses. -/

/-- An error-payload JSON object with the given code, message and doc url. -/
def errObj (code msg docURL : String) : Json :=
  Json.obj [("code", Json.str code), ("message", Json.str msg),
            ("doc_url", Json.str docURL)]

/-- A well-formed error body carrying the negative_balance code. -/
def errBodyEx : Json := errObj "negative_balance" "m" "d"

/-- A well-formed error body carrying one unrecognized code. -/
def errBodyWeirdA : Json := errObj "weird_code_a" "m" "d"

/-- A well-formed error body carrying another unrecognized code. -/
def errBodyWeirdB : Json := errObj "weird_code_b" "m" "d"

/-- A retry success body with remaining_retry 3. -/
def retryBodyA : Json :=
  Json.obj [("authentication_uuid", Json.str "u1"), ("status", Json.str "approved"),
            ("created_at", Json.str "t1"), ("next_retry_at", Json.str "t2"),
            ("remaining_retry", Json.num 3)]

/-- The same retry success body except with remaining_retry 7 and other
timestamps. -/
def retryBodyB : Json :=
  Json.obj [("authentication_uuid", Json.str "u1"), ("status", Json.str "approved"),
            ("created_at", Json.str "t3"), ("next_retry_at", Json.str "t4"),
            ("remaining_retry", Json.num 7)]

/-- An auth success body. -/
def authBodyEx : Json :=
  Json.obj [("authentication_uuid", Json.str "u1"), ("status", Json.str "pending"),
            ("created_at", Json.str "t1"), ("expires_at", Json.str "t2")]

/-- An environment whose validators reject everything and whose transport
fails: any network call would surface as an internal error. -/
def envDeny : Env :=
  { isValidNumber := fun _ => false
    isValidUUID := fun _ => false
    isValidURL := fun _ => false
    validTime := fun _ => false
    net := fun _ => PostResult.fail }

/-- An environment that accepts every phone number, recognizes exactly one
callback URL, and whose transport fails. -/
def envURL : Env :=
  { isValidNumber := fun _ => true
    isValidUUID := fun _ => false
    isValidURL := fun s => s == "https://example.com/cb"
    validTime := fun _ => true
    net := fun _ => PostResult.fail }

/-- An environment whose server answers every call with status 200 and the
retry body carrying remaining_retry 3. -/
def envRetryA : Env :=
  { isValidNumber := fun _ => true
    isValidUUID := fun _ => true
    isValidURL := fun _ => true
    validTime := fun _ => true
    net := fun _ => PostResult.resp 200 (some retryBodyA) }

/-- Same as `envRetryA` with the body carrying remaining_retry 7. -/
def envRetryB : Env :=
  { isValidNumber := fun _ => true
    isValidUUID := fun _ => true
    isValidURL := fun _ => true
    validTime := fun _ => true
    net := fun _ => PostResult.resp 200 (some retryBodyB) }

/-- An environment whose server answers every call with status 400 and the
negative_balance error body. -/
def envNegBalance : Env :=
  { isValidNumber := fun _ => true
    isValidUUID := fun _ => true
    isValidURL := fun _ => true
    validTime := fun _ => true
    net := fun _ => PostResult.resp 400 (some errBodyEx) }

/-- Authenticate options carrying an invalid phone number and a callback URL. -/
def optBadBoth : AuthenticateOptions :=
  { PhoneNumber := "bad", CallbackURL := some "not_a_url" }

/-- Authenticate options with the callback URL `envURL` recognizes. -/
def optGoodURL : AuthenticateOptions :=
  { PhoneNumber := "+33611223344", CallbackURL := some "https://example.com/cb" }

/-- Authenticate options with a callback URL `envURL` rejects. -/
def optBadURL : AuthenticateOptions :=
  { PhoneNumber := "+33611223344", CallbackURL := some "bad url" }

/-! Theorems. -/

/-- C2: an HTTP 403 response yields the unauthorized sentinel from the
decoding layer of all three operations no matter what the body holds — even a
well-formed error payload is never parsed — the normalizer maps that sentinel
to the caller-facing unauthorized (invalid API key) error, and each operation
facade surfaces exactly that error. -/
theorem C2_forbidden_unauthorized (vt : String → Bool) (body : Option Json) :
    api.decodeAuthentication vt 403 body = Except.error api.ApiError.unauthorized ∧
    api.decodeCheck 403 body = Except.error api.ApiError.unauthorized ∧
    api.decodeRetry vt 403 body = Except.error api.ApiError.unauthorized ∧
    apiErrToErr api.ApiError.unauthorized = DingError.unauthorized ∧
    (∀ env customerUUID opt, env.isValidNumber opt.PhoneNumber = true →
      opt.CallbackURL = none →
      env.net (NetReq.authentication (buildAuthRequest customerUUID opt)) =
        PostResult.resp 403 body →
      (AuthenticateWithContext env customerUUID opt).1 =
        Except.error DingError.unauthorized) ∧
    (∀ env customerUUID authUUID code, env.isValidUUID authUUID = true →
      env.net (NetReq.check ⟨customerUUID, authUUID, code⟩) =
        PostResult.resp 403 body →
      (CheckWithContext env customerUUID authUUID code).1 =
        Except.error DingError.unauthorized) ∧
    (∀ env customerUUID authUUID, env.isValidUUID authUUID = true →
      env.net (NetReq.retry ⟨customerUUID, authUUID⟩) =
        PostResult.resp 403 body →
      (RetryWithContext env customerUUID authUUID).1 =
        Except.error DingError.unauthorized) := by
  refine ⟨rfl, rfl, rfl, rfl, ?_, ?_, ?_⟩
  · intro env customerUUID opt hphone hcb hn
    have hdec : api.decodeAuthentication env.validTime 403 body =
        Except.error api.ApiError.unauthorized := rfl
    simp [AuthenticateWithContext, hphone, hcb, authenticateCall,
      api.Authentication, hn, hdec, apiErrToErr]
  · intro env customerUUID authUUID code hu hn
    have hdec : api.decodeCheck 403 body =
        Except.error api.ApiError.unauthorized := rfl
    simp [CheckWithContext, hu, api.Check, hn, hdec, apiErrToErr]
  · intro env customerUUID authUUID hu hn
    have hdec : api.decodeRetry env.validTime 403 body =
        Except.error api.ApiError.unauthorized := rfl
    simp [RetryWithContext, hu, api.Retry, hn, hdec, apiErrToErr]

/-- C3: the error normalizer maps domain-error codes by the fixed table —
negative_balance to the negative-balance error in particular — any code
outside the table collapses to the internal error, and a response carrying
the negative_balance code makes the operation return the negative-balance
error. -/
theorem C3_error_code_table (code : api.ErrorCode) :
    apiErrorCodeToErr api.ErrorCodeNegativeBalance = DingError.negativeBalance ∧
    apiErrorCodeToErr api.ErrorCodeInvalidPhoneNumber = DingError.invalidPhoneNumber ∧
    apiErrorCodeToErr api.ErrorCodeAccountInvalid = DingError.invalidCustomerUUID ∧
    apiErrorCodeToErr api.ErrorCodeInvalidLine = DingError.invalidPhoneNumber ∧
    apiErrorCodeToErr api.ErrorCodeUnsupportedRegion = DingError.unsupportedRegion ∧
    apiErrorCodeToErr api.ErrorCodeInvalidAuthUUID = DingError.invalidAuthUUID ∧
    (code ∉ handledErrorCodes → apiErrorCodeToErr code = DingError.internal) ∧
    (∀ env customerUUID authUUID checkCode, env.isValidUUID authUUID = true →
      env.net (NetReq.check ⟨customerUUID, authUUID, checkCode⟩) =
        PostResult.resp 400 (some errBodyEx) →
      CheckWithContext env customerUUID authUUID checkCode =
        (Except.error DingError.negativeBalance,
         [NetReq.check ⟨customerUUID, authUUID, checkCode⟩])) := by
  refine ⟨rfl, rfl, rfl, rfl, rfl, rfl, ?_, ?_⟩
  · intro h
    simp only [handledErrorCodes, List.mem_cons, List.not_mem_nil, or_false,
      not_or] at h
    obtain ⟨h1, h2, h3, h4, h5, h6⟩ := h
    simp [apiErrorCodeToErr, h1, h2, h3, h4, h5, h6]
  · intro env customerUUID authUUID checkCode hu hn
    have hdec : api.decodeCheck 400 (some errBodyEx) =
        Except.ok { Error := some ⟨"negative_balance", "m", "d"⟩, Success := none } := rfl
    simp [CheckWithContext, hu, api.Check, hn, hdec]
    rfl

/-- C3 at concrete inputs: a made-up code falls through the table to the
internal error, and the operation maps a negative_balance error payload to
the negative-balance error. -/
theorem C3_witness :
    apiErrorCodeToErr "made_up_code" = DingError.internal ∧
    CheckWithContext envNegBalance "c" "u" "1234" =
      (Except.error DingError.negativeBalance,
       [NetReq.check ⟨"c", "u", "1234"⟩]) :=
  ⟨(C3_error_code_table "made_up_code").2.2.2.2.2.2.1 (by decide),
   (C3_error_code_table "made_up_code").2.2.2.2.2.2.2 envNegBalance "c" "u" "1234" rfl rfl⟩

/-- C7 is false as stated: an unrecognized domain-error code decodes verbatim
to the raw string it was sent as, not to a stable "unknown" sentinel — two
distinct unrecognized codes decode to two distinct values and neither equals
"unknown". -/
theorem C7_counterexample :
    (api.decodeErrorResponse errBodyWeirdA).map api.ErrorResponse.Code =
      some "weird_code_a" ∧
    (api.decodeErrorResponse errBodyWeirdB).map api.ErrorResponse.Code =
      some "weird_code_b" ∧
    ("weird_code_a" : String) ≠ "unknown" ∧
    ("weird_code_a" : String) ≠ "weird_code_b" :=
  ⟨rfl, rfl, by decide, by decide⟩

/-- C7 (amended): deserialization of the error payload never fails for any
code string the server sends, and the code field decodes verbatim to that raw
string (there is no unknown sentinel; unrecognized codes are collapsed later
by the error normalizer). -/
theorem C7_error_code_decode (code msg docURL : String) :
    api.decodeErrorResponse (errObj code msg docURL) = some ⟨code, msg, docURL⟩ := rfl

/-- C9: evaluating the default logger shows the divergence — with the default
level (LevelError), Debugf and Infof do write to standard output, because the
level constants are ordered Debug = 0 .. Null = 4 while every method fires
when Level is at least its own constant. -/
theorem C9_default_logger_output :
    log.Logger.Debugf log.DefaultLeveledLogger "m" =
      [(log.Stream.stdout, "[DEBUG] m\n")] ∧
    log.Logger.Infof log.DefaultLeveledLogger "m" =
      [(log.Stream.stdout, "[INFO] m\n")] ∧
    log.Logger.Warnf log.DefaultLeveledLogger "m" =
      [(log.Stream.stderr, "[WARN] m\n")] ∧
    log.Logger.Errorf log.DefaultLeveledLogger "m" =
      [(log.Stream.stderr, "[ERROR] m\n")] :=
  ⟨rfl, rfl, rfl, rfl⟩

/-- Helper: whatever the network answers, the post-validation part of
Authenticate performs exactly one network call, to the authentication
endpoint with the request built from the options. -/
theorem authenticateCall_snd (env : Env) (customerUUID : String)
    (opt : AuthenticateOptions) :
    (authenticateCall env customerUUID opt).2 =
      [NetReq.authentication (buildAuthRequest customerUUID opt)] := by
  rcases h : api.Authentication env (buildAuthRequest customerUUID opt) with e | res
  · simp [authenticateCall, h]
  · rcases he : res.Error with _ | e <;> simp [authenticateCall, h, he]

/-- C6: for each of the three status enumerations, a recognized wire string
deserializes to itself and every other JSON string deserializes to the
unknown member of that enumeration — never to an error. -/
theorem C6_enum_tolerance (s : String) :
    status.Auth.unmarshalJSON (Json.str s) =
      some (if s ∈ authRecognized then s else status.AuthUnknown) ∧
    status.Check.unmarshalJSON (Json.str s) =
      some (if s ∈ checkRecognized then s else status.CheckUnknown) ∧
    status.Retry.unmarshalJSON (Json.str s) =
      some (if s ∈ retryRecognized then s else status.RetryUnknown) := by
  refine ⟨?_, ?_, ?_⟩
  · have hmem : s ∈ authRecognized ↔
        (s = "pending" ∨ s = "rate_limited" ∨ s = "spam_detected" ∨
         s = "approved" ∨ s = "canceled" ∨ s = "expired") := by
      simp [authRecognized]
    by_cases h : s = "pending" ∨ s = "rate_limited" ∨ s = "spam_detected" ∨
        s = "approved" ∨ s = "canceled" ∨ s = "expired"
    · simp only [status.Auth.unmarshalJSON, unmarshalString, if_pos h,
        if_pos (hmem.mpr h)]
    · simp only [status.Auth.unmarshalJSON, unmarshalString, if_neg h,
        if_neg (fun hm => h (hmem.mp hm))]
  · have hmem : s ∈ checkRecognized ↔
        (s = "valid" ∨ s = "invalid" ∨ s = "without_attempt" ∨
         s = "rate_limited" ∨ s = "already_validated" ∨ s = "expired_auth") := by
      simp [checkRecognized]
    by_cases h : s = "valid" ∨ s = "invalid" ∨ s = "without_attempt" ∨
        s = "rate_limited" ∨ s = "already_validated" ∨ s = "expired_auth"
    · simp only [status.Check.unmarshalJSON, unmarshalString, if_pos h,
        if_pos (hmem.mpr h)]
    · simp only [status.Check.unmarshalJSON, unmarshalString, if_neg h,
        if_neg (fun hm => h (hmem.mp hm))]
  · have hmem : s ∈ retryRecognized ↔
        (s = "approved" ∨ s = "denied" ∨ s = "no_attempt" ∨
         s = "rate_limited" ∨ s = "expired_auth" ∨ s = "already_validated") := by
      simp [retryRecognized]
    by_cases h : s = "approved" ∨ s = "denied" ∨ s = "no_attempt" ∨
        s = "rate_limited" ∨ s = "expired_auth" ∨ s = "already_validated"
    · simp only [status.Retry.unmarshalJSON, unmarshalString, if_pos h,
        if_pos (hmem.mpr h)]
    · simp only [status.Retry.unmarshalJSON, unmarshalString, if_neg h,
        if_neg (fun hm => h (hmem.mp hm))]

/-- C4: a phone number the phone library rejects makes Authenticate fail with
the invalid-phone-number error before any network call, and an
authentication UUID the UUID library rejects makes Check and Retry fail with
the invalid-authentication-UUID error before any network call (the recorded
network trace stays empty). -/
theorem C4_local_validation (env : Env) (customerUUID authUUID code : String)
    (opt : AuthenticateOptions) :
    (env.isValidNumber opt.PhoneNumber = false →
      AuthenticateWithContext env customerUUID opt =
        (Except.error DingError.invalidPhoneNumber, [])) ∧
    (env.isValidUUID authUUID = false →
      CheckWithContext env customerUUID authUUID code =
        (Except.error DingError.invalidAuthUUID, [])) ∧
    (env.isValidUUID authUUID = false →
      RetryWithContext env customerUUID authUUID =
        (Except.error DingError.invalidAuthUUID, [])) := by
  refine ⟨fun h => ?_, fun h => ?_, fun h => ?_⟩
  · simp [AuthenticateWithContext, h]
  · simp [CheckWithContext, h]
  · simp [RetryWithContext, h]

/-- C4 at concrete inputs: with validators that reject the given phone number
and UUID, all three operations fail locally and the network trace is empty. -/
theorem C4_witness :
    AuthenticateWithContext envDeny "c" optBadBoth =
      (Except.error DingError.invalidPhoneNumber, []) ∧
    CheckWithContext envDeny "c" "u" "1234" =
      (Except.error DingError.invalidAuthUUID, []) ∧
    RetryWithContext envDeny "c" "u" =
      (Except.error DingError.invalidAuthUUID, []) := by
  obtain ⟨h1, h2, h3⟩ := C4_local_validation envDeny "c" "u" "1234" optBadBoth
  exact ⟨h1 rfl, h2 rfl, h3 rfl⟩

/-- C5 is false as stated: the caller-facing Retry value does not carry the
createdAt, nextRetryAt or remainingRetry the server reported — two server
payloads that decode to different remaining_retry counts (3 and 7) and
different timestamps produce identical caller-facing results. -/
theorem C5_counterexample :
    (api.decodeRetrySuccess (fun _ => true) retryBodyA).map
      api.RetrySuccessResponse.RemainingRetry = some 3 ∧
    (api.decodeRetrySuccess (fun _ => true) retryBodyB).map
      api.RetrySuccessResponse.RemainingRetry = some 7 ∧
    (3 : Int) ≠ 7 ∧
    RetryWithContext envRetryA "c" "u" = RetryWithContext envRetryB "c" "u" :=
  ⟨rfl, rfl, by decide, rfl⟩

/-- C5 (amended): on a successful Retry call the internal api layer decodes
the authentication_uuid, status, created_at, next_retry_at and
remaining_retry fields reported by the server, and the caller-facing Retry
result carries the authentication UUID and the status of that decoded
payload (the other three fields are not exposed on it). -/
theorem C5_retry_success (env : Env) (customerUUID authUUID : String)
    (j : Json) (s : api.RetrySuccessResponse)
    (hu : env.isValidUUID authUUID = true)
    (hn : env.net (NetReq.retry ⟨customerUUID, authUUID⟩) =
      PostResult.resp 200 (some j))
    (hd : api.decodeRetrySuccess env.validTime j = some s) :
    RetryWithContext env customerUUID authUUID =
      (Except.ok { AuthenticationUUID := s.AuthenticationUUID, Status := s.Status },
       [NetReq.retry ⟨customerUUID, authUUID⟩]) := by
  have hdec : api.decodeRetry env.validTime 200 (some j) =
      Except.ok { Error := none, Success := some s } := by
    simp [api.decodeRetry, hd]
  simp [RetryWithContext, hu, api.Retry, hn, hdec]

/-- C5 at a concrete input: a 200 response whose body decodes to the payload
with UUID u1, status approved and remaining_retry 3 yields exactly the
caller-facing result carrying u1 and approved. -/
theorem C5_witness :
    RetryWithContext envRetryA "c" "u" =
      (Except.ok { AuthenticationUUID := "u1", Status := "approved" },
       [NetReq.retry ⟨"c", "u"⟩]) :=
  C5_retry_success envRetryA "c" "u" retryBodyA ⟨"u1", "approved", ⟨"t1"⟩, ⟨"t2"⟩, 3⟩
    rfl rfl rfl

/-- C8 is false as stated: an Authenticate call that provides a syntactically
invalid callbackURL but also an invalid phone number returns the
invalid-phone-number error, not InvalidCallbackURL. -/
theorem C8_counterexample :
    AuthenticateWithContext envDeny "c" optBadBoth =
      (Except.error DingError.invalidPhoneNumber, []) ∧
    DingError.invalidPhoneNumber ≠ DingError.invalidCallbackURL :=
  ⟨rfl, by decide⟩

/-- C8 (amended): for every Authenticate call whose phone number passes
validation and which provides a callbackURL: if the URL parser rejects it the
call returns the invalid-callback-URL error with no network call, and if the
URL parser accepts it validation passes and the call proceeds to exactly the
authentication network call. -/
theorem C8_callback_validation (env : Env) (customerUUID u : String)
    (opt : AuthenticateOptions)
    (hphone : env.isValidNumber opt.PhoneNumber = true)
    (hcb : opt.CallbackURL = some u) :
    (env.isValidURL u = false →
      AuthenticateWithContext env customerUUID opt =
        (Except.error DingError.invalidCallbackURL, [])) ∧
    (env.isValidURL u = true →
      (AuthenticateWithContext env customerUUID opt).2 =
        [NetReq.authentication (buildAuthRequest customerUUID opt)]) := by
  constructor <;> intro h <;>
    simp [AuthenticateWithContext, hphone, hcb, h, authenticateCall_snd]

/-- C8 at concrete inputs: with a valid phone number, the rejected URL fails
locally with an empty trace and the accepted URL reaches the authentication
endpoint. -/
theorem C8_witness :
    AuthenticateWithContext envURL "c" optBadURL =
      (Except.error DingError.invalidCallbackURL, []) ∧
    (AuthenticateWithContext envURL "c" optGoodURL).2 =
      [NetReq.authentication (buildAuthRequest "c" optGoodURL)] :=
  ⟨(C8_callback_validation envURL "c" "bad url" optBadURL rfl rfl).1 rfl,
   (C8_callback_validation envURL "c" "https://example.com/cb" optGoodURL rfl rfl).2 rfl⟩

/-- C1 is false as stated: at HTTP status 301, which is not in the 4xx/5xx
range, the decoder still yields a domain-error payload, and at status 403 a
body that fails to deserialize yields the unauthorized error rather than the
internal error. -/
theorem C1_counterexample :
    api.decodeAuthentication (fun _ => true) 301 (some errBodyEx) =
      Except.ok { Error := some ⟨"negative_balance", "m", "d"⟩, Success := none } ∧
    ¬(400 ≤ 301 ∧ 301 ≤ 599) ∧
    api.decodeAuthentication (fun _ => true) 403 none =
      Except.error api.ApiError.unauthorized ∧
    api.ApiError.unauthorized ≠ api.ApiError.internal :=
  ⟨rfl, by decide, rfl, by decide⟩

/-- C1 (amended): for each of the Authentication, Check and Retry decoders,
a typed success payload is yielded exactly when the status is 200 and the
body deserializes into the success shape; a domain-error payload is yielded
exactly when the status is neither 200 nor 403 and the body deserializes
into the error-payload shape; and whenever the body fails to deserialize
into the shape expected for its branch (any status other than 403), the
operation returns the internal error. -/
theorem C1_decoder_classification (vt : String → Bool) (sc : Nat) (body : Option Json) :
    (∀ s, api.decodeAuthentication vt sc body =
        Except.ok { Error := none, Success := some s } ↔
      sc = 200 ∧ body.bind (api.decodeAuthSuccess vt) = some s) ∧
    (∀ e, api.decodeAuthentication vt sc body =
        Except.ok { Error := some e, Success := none } ↔
      sc ≠ 200 ∧ sc ≠ 403 ∧ body.bind api.decodeErrorResponse = some e) ∧
    (api.decodeAuthentication vt sc body = Except.error api.ApiError.internal ↔
      ((sc = 200 ∧ body.bind (api.decodeAuthSuccess vt) = none) ∨
       (sc ≠ 200 ∧ sc ≠ 403 ∧ body.bind api.decodeErrorResponse = none))) ∧
    (∀ s, api.decodeCheck sc body =
        Except.ok { Error := none, Success := some s } ↔
      sc = 200 ∧ body.bind api.decodeCheckSuccess = some s) ∧
    (∀ e, api.decodeCheck sc body =
        Except.ok { Error := some e, Success := none } ↔
      sc ≠ 200 ∧ sc ≠ 403 ∧ body.bind api.decodeErrorResponse = some e) ∧
    (api.decodeCheck sc body = Except.error api.ApiError.internal ↔
      ((sc = 200 ∧ body.bind api.decodeCheckSuccess = none) ∨
       (sc ≠ 200 ∧ sc ≠ 403 ∧ body.bind api.decodeErrorResponse = none))) ∧
    (∀ s, api.decodeRetry vt sc body =
        Except.ok { Error := none, Success := some s } ↔
      sc = 200 ∧ body.bind (api.decodeRetrySuccess vt) = some s) ∧
    (∀ e, api.decodeRetry vt sc body =
        Except.ok { Error := some e, Success := none } ↔
      sc ≠ 200 ∧ sc ≠ 403 ∧ body.bind api.decodeErrorResponse = some e) ∧
    (api.decodeRetry vt sc body = Except.error api.ApiError.internal ↔
      ((sc = 200 ∧ body.bind (api.decodeRetrySuccess vt) = none) ∨
       (sc ≠ 200 ∧ sc ≠ 403 ∧ body.bind api.decodeErrorResponse = none))) := by
  by_cases h200 : sc = 200
  · subst h200
    cases hs : body.bind (api.decodeAuthSuccess vt) <;>
    cases hc : body.bind api.decodeCheckSuccess <;>
    cases hr : body.bind (api.decodeRetrySuccess vt) <;>
      simp [api.decodeAuthentication, api.decodeCheck, api.decodeRetry, hs, hc, hr]
  · by_cases h403 : sc = 403
    · subst h403
      simp [api.decodeAuthentication, api.decodeCheck, api.decodeRetry]
    · cases he : body.bind api.decodeErrorResponse <;>
        simp [api.decodeAuthentication, api.decodeCheck, api.decodeRetry,
          h200, h403, he]

/-- C10: whenever one of the three decoders returns an envelope without
error, exactly one of the envelope's Error and Success fields is set, so the
facade can branch on Error being nil and dereference Success safely. -/
theorem C10_envelope_invariant (vt : String → Bool) (sc : Nat) (body : Option Json) :
    (∀ r, api.decodeAuthentication vt sc body = Except.ok r →
      (r.Error = none ∧ r.Success ≠ none) ∨ (r.Error ≠ none ∧ r.Success = none)) ∧
    (∀ r, api.decodeCheck sc body = Except.ok r →
      (r.Error = none ∧ r.Success ≠ none) ∨ (r.Error ≠ none ∧ r.Success = none)) ∧
    (∀ r, api.decodeRetry vt sc body = Except.ok r →
      (r.Error = none ∧ r.Success ≠ none) ∨ (r.Error ≠ none ∧ r.Success = none)) := by
  refine ⟨fun r hr => ?_, fun r hr => ?_, fun r hr => ?_⟩
  · obtain ⟨rError, rSuccess⟩ := r
    by_cases h200 : sc = 200
    · subst h200
      cases hs : body.bind (api.decodeAuthSuccess vt) <;>
        simp [api.decodeAuthentication, hs] at hr
      obtain ⟨h1, h2⟩ := hr
      subst h1; subst h2; simp
    · by_cases h403 : sc = 403
      · subst h403
        simp [api.decodeAuthentication] at hr
      · cases he : body.bind api.decodeErrorResponse <;>
          simp [api.decodeAuthentication, h200, h403, he] at hr
        obtain ⟨h1, h2⟩ := hr
        subst h1; subst h2; simp
  · obtain ⟨rError, rSuccess⟩ := r
    by_cases h200 : sc = 200
    · subst h200
      cases hs : body.bind api.decodeCheckSuccess <;>
        simp [api.decodeCheck, hs] at hr
      obtain ⟨h1, h2⟩ := hr
      subst h1; subst h2; simp
    · by_cases h403 : sc = 403
      · subst h403
        simp [api.decodeCheck] at hr
      · cases he : body.bind api.decodeErrorResponse <;>
          simp [api.decodeCheck, h200, h403, he] at hr
        obtain ⟨h1, h2⟩ := hr
        subst h1; subst h2; simp
  · obtain ⟨rError, rSuccess⟩ := r
    by_cases h200 : sc = 200
    · subst h200
      cases hs : body.bind (api.decodeRetrySuccess vt) <;>
        simp [api.decodeRetry, hs] at hr
      obtain ⟨h1, h2⟩ := hr
      subst h1; subst h2; simp
    · by_cases h403 : sc = 403
      · subst h403
        simp [api.decodeRetry] at hr
      · cases he : body.bind api.decodeErrorResponse <;>
          simp [api.decodeRetry, h200, h403, he] at hr
        obtain ⟨h1, h2⟩ := hr
        subst h1; subst h2; simp

/-- C10 at a concrete input: the envelope decoded from a 400 response with a
well-formed error body has its Error field set and its Success field empty. -/
theorem C10_witness :
    (some (⟨"negative_balance", "m", "d"⟩ : api.ErrorResponse) = none ∧
      (none : Option api.AuthSuccessResponse) ≠ none) ∨
    (some (⟨"negative_balance", "m", "d"⟩ : api.ErrorResponse) ≠ none ∧
      (none : Option api.AuthSuccessResponse) = none) :=
  (C10_envelope_invariant (fun _ => true) 400 (some errBodyEx)).1
    ⟨some ⟨"negative_balance", "m", "d"⟩, none⟩ rfl

end Ding
